import Mathlib

/-!
Verification of the MAGAN model builder (`src/MAGAN/magan_model.py`).

The source builds a TensorFlow graph: an autoencoding discriminator
(encoder + decoder), a generator, four scalar losses, and three Adam
optimizer operations restricted to name-prefixed parameter partitions.

We embed it shallowly:
* batches are flattened to `List ℚ` for the loss algebra (the loss formulas
  in `build_magan`, lines 208-211), keeping everything computable;
* the layer primitives from the repository's `tfutil` module (not among the
  given sources) and the tensor substrate are modelled abstractly over `ℝ`
  for the network-topology and activation-range claims;
* TensorFlow variables are modelled as a name-keyed store for the
  optimizer frame-effect claims.
-/

namespace MAGAN

/-- Modelled from the spec: `t.mse_loss` comes from the repository's `tfutil`
module, which is not among the given sources. The spec's glossary defines
reconstruction error as the "mean-squared pixel-wise difference", i.e. the
mean over all elements of the squared elementwise difference. -/
def mse_loss (a b : List ℚ) : ℚ :=
  (List.zipWith (fun u v => (u - v) ^ 2) a b).sum / (a.length : ℚ)

/-- The four per-step scalar losses of `build_magan`. -/
structure Losses where
  d_real_loss : ℚ
  d_fake_loss : ℚ
  d_loss : ℚ
  g_loss : ℚ
deriving Repr, DecidableEq

/-- Loss composition of `build_magan` (source lines 205-211): the
discriminator reconstruction `d` is applied to the real batch `x`
(line 205) and to the generator output `g` (line 206), then
`d_real_loss = mse_loss x (d x)`, `d_fake_loss = mse_loss g (d g)`,
`d_loss = d_real_loss + max 0 (m - d_fake_loss)` and
`g_loss = d_fake_loss` (lines 208-211), where `m` is the margin
placeholder. -/
def build_magan_losses (d : List ℚ → List ℚ) (x g : List ℚ) (m : ℚ) : Losses :=
  let d_real := d x
  let d_fake := d g
  let d_real_loss := mse_loss x d_real
  let d_fake_loss := mse_loss g d_fake
  { d_real_loss := d_real_loss
    d_fake_loss := d_fake_loss
    d_loss := d_real_loss + max 0 (m - d_fake_loss)
    g_loss := d_fake_loss }

/-- Scope-qualified names of the trainable variables created inside the
`generator` variable scope (source lines 177-195): one dense layer, three
deconvolution layers and three batch-norm layers, each named as in the
source. TensorFlow joins enclosing scope names with `/`.
Modelled from the spec: the per-variable names inside each `tfutil` layer
are not among the given sources; each layer is modelled as one named
parameter carrying its scope-qualified layer name. -/
def generator_var_names : List String :=
  ["generator/gen-fc-1", "generator/gen-bn-1",
   "generator/gen-deconv2d-1", "generator/gen-bn-2",
   "generator/gen-deconv2d-2", "generator/gen-bn-3",
   "generator/gen-deconv2d-3"]

/-- Scope-qualified names of the trainable variables created inside the
`discriminator` variable scope: the `encoder` sub-scope (source lines
119-129) and the `decoder` sub-scope (source lines 140-150). -/
def discriminator_var_names : List String :=
  ["discriminator/encoder/enc-conv2d-1",
   "discriminator/encoder/enc-conv2d-2", "discriminator/encoder/enc-bn-1",
   "discriminator/encoder/enc-conv2d-3", "discriminator/encoder/enc-bn-2",
   "discriminator/decoder/dec-deconv2d-1", "discriminator/decoder/dec-bn-1",
   "discriminator/decoder/dec-deconv2d-2", "discriminator/decoder/dec-bn-2",
   "discriminator/decoder/dec-deconv2d-3"]

/-- `tf.trainable_variables()` at source line 220: every trainable variable
of the graph, i.e. those created by the generator (line 201) and the
discriminator (line 205); the reused calls (lines 202, 206) create none. -/
def trainable_variables : List String :=
  generator_var_names ++ discriminator_var_names

/-- Python's `v.name.startswith(c)` for a one-character prefix `c`: the
name's first character equals `c`. -/
def name_starts_with (v : String) (c : Char) : Bool :=
  match v.data with
  | [] => false
  | a :: _ => a == c

/-- `d_params` (source line 221): trainable variables whose name starts
with `d`. -/
def d_params : List String :=
  trainable_variables.filter (fun v => name_starts_with v 'd')

/-- `g_params` (source line 222): trainable variables whose name starts
with `g`. -/
def g_params : List String :=
  trainable_variables.filter (fun v => name_starts_with v 'g')

/-- A parameter store: each variable name bound to its current value. -/
def init_params (vals : String → ℚ) : List (String × ℚ) :=
  trainable_variables.map (fun v => (v, vals v))

/-- One `AdamOptimizer(...).minimize(loss, var_list=...)` step (source lines
224-233): every variable in `var_list` is moved by the optimizer update
`upd` derived from the loss gradient; variables outside `var_list` are not
touched. `upd` is abstract: the claims are frame effects, not numerics. -/
def minimize (var_list : List String) (upd : String → ℚ → ℚ)
    (θ : List (String × ℚ)) : List (String × ℚ) :=
  θ.map (fun p => if p.1 ∈ var_list then (p.1, upd p.1 p.2) else p)

/-- A tensor, flattened to its element sequence. Shape bookkeeping is the
substrate's concern; the claims below are about element values. -/
def Tensor : Type := ℕ → ℝ

/-- A variable store: scope-qualified variable name and element index to
value. Two layer invocations read identical parameter values exactly when
they are given the same store — this is the embedding of TensorFlow
variable-scope reuse (`reuse=True` reads the variables the first call
created instead of creating fresh ones). -/
def ParamStore : Type := String → ℕ → ℝ

/-- Modelled from the spec: the parameterised layer primitives
(`t.conv2d`, `t.deconv2d`, `t.dense`, `t.batch_norm` of the repository's
`tfutil` module, not among the given sources) belong to the spec's
"Tensor/Autodiff Substrate (external collaborator)" and are kept abstract.
Each takes the variable store, the scope-qualified layer name and its
hyperparameters (filters/units, kernel, stride, or the `is_train` flag). -/
structure Substrate where
  conv2d : ParamStore → String → ℕ → ℕ → ℕ → Tensor → Tensor
  deconv2d : ParamStore → String → ℕ → ℕ → ℕ → Tensor → Tensor
  dense : ParamStore → String → ℕ → Tensor → Tensor
  batch_norm : ParamStore → String → Bool → Tensor → Tensor

/-- Elementwise application of an activation function. -/
def tmap (f : ℝ → ℝ) (t : Tensor) : Tensor := fun i => f (t i)

/-- `tf.nn.leaky_relu` with its default slope 0.2:
`max (0.2 * x) x`. -/
noncomputable def leaky_relu (x : ℝ) : ℝ := max x (0.2 * x)

/-- `tf.nn.sigmoid`: the logistic function `1 / (1 + exp (-x))`. -/
noncomputable def sigmoid (x : ℝ) : ℝ := 1 / (1 + Real.exp (-x))

/-- `encoder` (source lines 112-131): three strided convolutions
(channels ×1, ×2, ×4 of `df_dim`), batch norm on stages 2-3, leaky ReLU
after every stage. Layer names carry the enclosing `discriminator` scope
of the caller. -/
noncomputable def encoder (S : Substrate) (θ : ParamStore) (df_dim : ℕ)
    (x : Tensor) : Tensor :=
  let x1 := S.conv2d θ "discriminator/encoder/enc-conv2d-1" (df_dim * 1) 4 2 x
  let x2 := tmap leaky_relu x1
  let x3 := S.conv2d θ "discriminator/encoder/enc-conv2d-2" (df_dim * 2) 4 2 x2
  let x4 := S.batch_norm θ "discriminator/encoder/enc-bn-1" true x3
  let x5 := tmap leaky_relu x4
  let x6 := S.conv2d θ "discriminator/encoder/enc-conv2d-3" (df_dim * 4) 4 2 x5
  let x7 := S.batch_norm θ "discriminator/encoder/enc-bn-2" true x6
  tmap leaky_relu x7

/-- `decoder` (source lines 133-152): three strided deconvolutions
(channels ×2, ×1 of `df_dim`, then `channel`), batch norm and leaky ReLU
on the first two stages, sigmoid on the final stage. -/
noncomputable def decoder (S : Substrate) (θ : ParamStore) (df_dim channel : ℕ)
    (x : Tensor) : Tensor :=
  let x1 := S.deconv2d θ "discriminator/decoder/dec-deconv2d-1" (df_dim * 2) 4 2 x
  let x2 := S.batch_norm θ "discriminator/decoder/dec-bn-1" true x1
  let x3 := tmap leaky_relu x2
  let x4 := S.deconv2d θ "discriminator/decoder/dec-deconv2d-2" (df_dim * 1) 4 2 x3
  let x5 := S.batch_norm θ "discriminator/decoder/dec-bn-2" true x4
  let x6 := tmap leaky_relu x5
  let x7 := S.deconv2d θ "discriminator/decoder/dec-deconv2d-3" channel 4 2 x6
  tmap sigmoid x7

/-- `discriminator` (source lines 154-166): encode, decode the embedding,
return the pair `(embeddings, decoded)`. Both sub-networks read the same
store `θ`. -/
noncomputable def discriminator (S : Substrate) (θ : ParamStore)
    (df_dim channel : ℕ) (x : Tensor) : Tensor × Tensor :=
  let embeddings := encoder S θ df_dim x
  let decoded := decoder S θ df_dim channel embeddings
  (embeddings, decoded)

/-- The assertion guarding `generator` (source line 178):
`assert self.fc_unit == 4 * 4 * self.gf_dim // 2`, where `//` is Python
floor division and `*`, `//` associate left at equal precedence. -/
def generator_assert (fc_unit gf_dim : ℕ) : Bool :=
  fc_unit == 4 * 4 * gf_dim / 2

/-- The layer pipeline of `generator` (source lines 180-197): dense
projection to `fc_unit` units, batch norm, leaky ReLU, reshape to a
4×4×(gf_dim/2) map (the identity on the flattened element sequence),
then three deconvolutions (channels ×4, ×2 of `gf_dim`, then `channel`)
with batch norm and leaky ReLU on the first two and tanh on the last. -/
noncomputable def generator_layers (S : Substrate) (θ : ParamStore)
    (gf_dim fc_unit channel : ℕ) (is_train : Bool) (z : Tensor) : Tensor :=
  let x1 := S.dense θ "generator/gen-fc-1" fc_unit z
  let x2 := S.batch_norm θ "generator/gen-bn-1" is_train x1
  let x3 := tmap leaky_relu x2
  let x4 := x3
  let x5 := S.deconv2d θ "generator/gen-deconv2d-1" (gf_dim * 4) 4 2 x4
  let x6 := S.batch_norm θ "generator/gen-bn-2" is_train x5
  let x7 := tmap leaky_relu x6
  let x8 := S.deconv2d θ "generator/gen-deconv2d-2" (gf_dim * 2) 4 2 x7
  let x9 := S.batch_norm θ "generator/gen-bn-3" is_train x8
  let x10 := tmap leaky_relu x9
  let x11 := S.deconv2d θ "generator/gen-deconv2d-3" channel 4 2 x10
  tmap Real.tanh x11

/-- `generator` (source lines 168-197): the assertion is the first
statement of the scope, so a violating configuration fails before any
layer is built; a satisfying one builds the pipeline. -/
noncomputable def generator (S : Substrate) (θ : ParamStore)
    (gf_dim fc_unit channel : ℕ) (is_train : Bool) (z : Tensor) :
    Option Tensor :=
  if generator_assert fc_unit gf_dim then
    some (generator_layers S θ gf_dim fc_unit channel is_train z)
  else none

/-- The two discriminator invocations of `build_magan` (source lines
205-206): line 205 creates the discriminator variables in `θ`, line 206
calls it with `reuse=True`, i.e. against the very same store `θ`. -/
noncomputable def build_discriminator_passes (S : Substrate) (θ : ParamStore)
    (df_dim channel : ℕ) (x g : Tensor) : (Tensor × Tensor) × (Tensor × Tensor) :=
  (discriminator S θ df_dim channel x, discriminator S θ df_dim channel g)

/-- A trivial substrate whose layers pass their input through; used below
only to instantiate general theorems at a concrete configuration. -/
noncomputable def sub0 : Substrate where
  conv2d := fun _ _ _ _ _ t => t
  deconv2d := fun _ _ _ _ _ t => t
  dense := fun _ _ _ t => t
  batch_norm := fun _ _ _ t => t

/-- The all-zero variable store. -/
noncomputable def params0 : ParamStore := fun _ _ => 0

/-- The all-zero tensor. -/
noncomputable def tensor0 : Tensor := fun _ => 0

end MAGAN

namespace MAGAN

/-- Sums of squared elementwise differences are nonnegative. -/
theorem sq_diff_sum_nonneg :
    ∀ a b : List ℚ, 0 ≤ (List.zipWith (fun u v => (u - v) ^ 2) a b).sum
  | [], _ => by simp
  | _ :: _, [] => by simp
  | u :: a, v :: b => by
    simp only [List.zipWith_cons_cons, List.sum_cons]
    have h := sq_diff_sum_nonneg a b
    positivity

/-- Squared differences are nonnegative, hence so is their mean. -/
theorem mse_loss_nonneg (a b : List ℚ) : 0 ≤ mse_loss a b := by
  unfold mse_loss
  apply div_nonneg (sq_diff_sum_nonneg a b)
  exact_mod_cast Nat.zero_le _

/-- Hyperbolic tangent stays below one. -/
theorem real_tanh_lt_one (x : ℝ) : Real.tanh x < 1 := by
  rw [Real.tanh_eq_sinh_div_cosh]
  exact (div_lt_one (Real.cosh_pos x)).mpr (Real.sinh_lt_cosh x)

/-- Hyperbolic tangent stays above minus one. -/
theorem neg_one_lt_real_tanh (x : ℝ) : -1 < Real.tanh x := by
  rw [Real.tanh_eq_sinh_div_cosh, lt_div_iff₀ (Real.cosh_pos x)]
  have h := Real.sinh_lt_cosh (-x)
  rw [Real.sinh_neg, Real.cosh_neg] at h
  linarith

/-- The logistic function is positive. -/
theorem sigmoid_pos (x : ℝ) : 0 < sigmoid x := by
  unfold sigmoid
  positivity

/-- The logistic function stays below one. -/
theorem sigmoid_lt_one (x : ℝ) : sigmoid x < 1 := by
  unfold sigmoid
  rw [div_lt_one (by positivity)]
  have h := Real.exp_pos (-x)
  linarith

end MAGAN

namespace MAGAN

/-- Claim C1: for every real image batch `x`, margin `m` and generator output
`g`, `build_magan` sets `d_real_loss` to the mean-squared error between
`x` and the discriminator's reconstruction of `x`, `d_fake_loss` to the
mean-squared error between `g` and the discriminator's reconstruction of
`g`, and `d_loss` to `d_real_loss + max 0 (m - d_fake_loss)`. -/
theorem losses_formula (d : List ℚ → List ℚ) (x g : List ℚ) (m : ℚ) :
    (build_magan_losses d x g m).d_real_loss = mse_loss x (d x) ∧
    (build_magan_losses d x g m).d_fake_loss = mse_loss g (d g) ∧
    (build_magan_losses d x g m).d_loss
      = mse_loss x (d x) + max 0 (m - mse_loss g (d g)) :=
  ⟨rfl, rfl, rfl⟩

/-- Claim C7: for every input batch, generator output and margin, `g_loss`
equals `d_fake_loss`, the mean-squared reconstruction error of the fake
images. -/
theorem g_loss_is_fake_loss (d : List ℚ → List ℚ) (x g : List ℚ) (m : ℚ) :
    (build_magan_losses d x g m).g_loss
        = (build_magan_losses d x g m).d_fake_loss ∧
    (build_magan_losses d x g m).g_loss = mse_loss g (d g) :=
  ⟨rfl, rfl⟩

/-- Claim C8: for every real batch, generated batch and margin,
`d_loss ≥ d_real_loss`, because the hinge term `max 0 (m - d_fake_loss)`
is nonnegative. -/
theorem d_loss_ge_d_real_loss (d : List ℚ → List ℚ) (x g : List ℚ) (m : ℚ) :
    (build_magan_losses d x g m).d_real_loss
      ≤ (build_magan_losses d x g m).d_loss :=
  le_add_of_nonneg_right (le_max_left 0 _)

/-- Claim C9: whenever `d_fake_loss` exceeds the margin `m`, the hinge term
vanishes and `d_loss` equals `d_real_loss` exactly. -/
theorem d_loss_eq_d_real_loss_beyond_margin (d : List ℚ → List ℚ)
    (x g : List ℚ) (m : ℚ)
    (h : m < (build_magan_losses d x g m).d_fake_loss) :
    (build_magan_losses d x g m).d_loss
      = (build_magan_losses d x g m).d_real_loss := by
  have h2 : m - mse_loss g (d g) ≤ 0 := by
    have h3 : m < mse_loss g (d g) := h
    linarith
  show mse_loss x (d x) + max 0 (m - mse_loss g (d g)) = mse_loss x (d x)
  rw [max_eq_left h2, add_zero]

/-- Claim C9 witness: with identity reconstruction, real batch `[0]`, fake
batch `[1]` and margin `-1`, the fake loss `0` exceeds the margin and
`d_loss = d_real_loss`. -/
theorem d_loss_eq_d_real_loss_beyond_margin_holds :
    ((-1 : ℚ) < (build_magan_losses (fun l => l) [0] [1] (-1)).d_fake_loss) ∧
    (build_magan_losses (fun l => l) [0] [1] (-1)).d_loss
      = (build_magan_losses (fun l => l) [0] [1] (-1)).d_real_loss :=
  ⟨by simp [build_magan_losses, mse_loss],
   d_loss_eq_d_real_loss_beyond_margin (fun l => l) [0] [1] (-1)
     (by simp [build_magan_losses, mse_loss])⟩

/-- Claim C10: all four per-step loss scalars are nonnegative: the two
mean-squared errors by construction, `g_loss` because it equals
`d_fake_loss`, and `d_loss` as a sum of two nonnegative terms. -/
theorem losses_nonneg (d : List ℚ → List ℚ) (x g : List ℚ) (m : ℚ) :
    0 ≤ (build_magan_losses d x g m).d_real_loss ∧
    0 ≤ (build_magan_losses d x g m).d_fake_loss ∧
    0 ≤ (build_magan_losses d x g m).d_loss ∧
    0 ≤ (build_magan_losses d x g m).g_loss := by
  have h1 := mse_loss_nonneg x (d x)
  have h2 := mse_loss_nonneg g (d g)
  exact ⟨h1, h2, add_nonneg h1 (le_max_left 0 _), h2⟩

/-- Claim C2: the trainable variables are partitioned by the first character of
their name into disjoint `d_params` and `g_params`; one step of
`d_real_op` or `d_op` (`var_list = d_params`) leaves every
generator-prefixed parameter unchanged, and one step of `g_op`
(`var_list = g_params`) leaves every discriminator-prefixed parameter
unchanged, for arbitrary optimizer updates and arbitrary current values. -/
theorem optimizer_partition_frame (upd_dr upd_d upd_g : String → ℚ → ℚ)
    (vals : String → ℚ) :
    d_params.all (fun v => !(g_params.contains v)) = true ∧
    g_params.all (fun v => !(d_params.contains v)) = true ∧
    trainable_variables.all
      (fun v => d_params.contains v || g_params.contains v) = true ∧
    (minimize d_params upd_dr (init_params vals)).filter
        (fun p => name_starts_with p.1 'g')
      = (init_params vals).filter (fun p => name_starts_with p.1 'g') ∧
    (minimize d_params upd_d (init_params vals)).filter
        (fun p => name_starts_with p.1 'g')
      = (init_params vals).filter (fun p => name_starts_with p.1 'g') ∧
    (minimize g_params upd_g (init_params vals)).filter
        (fun p => name_starts_with p.1 'd')
      = (init_params vals).filter (fun p => name_starts_with p.1 'd') :=
  ⟨by decide, by decide, by decide, rfl, rfl, rfl⟩

/-- Claim C3: generator construction succeeds exactly when
`fc_unit = 4 * 4 * (gf_dim / 2)` (exact rational arithmetic, i.e.
`fc_unit = 8 * gf_dim`); any violating configuration fails at the
assertion, which guards the whole layer pipeline. -/
theorem generator_construction_iff (S : Substrate) (θ : ParamStore)
    (gf_dim fc_unit channel : ℕ) (is_train : Bool) (z : Tensor) :
    (generator S θ gf_dim fc_unit channel is_train z).isSome = true ↔
      (fc_unit : ℚ) = 4 * 4 * ((gf_dim : ℚ) / 2) := by
  have hb : generator_assert fc_unit gf_dim = true ↔ fc_unit = 8 * gf_dim := by
    unfold generator_assert
    rw [beq_iff_eq]
    constructor <;> intro h <;> omega
  have hq : ((fc_unit : ℚ) = 4 * 4 * ((gf_dim : ℚ) / 2))
      ↔ fc_unit = 8 * gf_dim := by
    rw [show (4 : ℚ) * 4 * ((gf_dim : ℚ) / 2) = ((8 * gf_dim : ℕ) : ℚ) by
      push_cast; ring]
    exact Nat.cast_inj
  by_cases h : generator_assert fc_unit gf_dim = true
  · simp only [generator, h, if_true, Option.isSome_some, true_iff]
    exact hq.mpr (hb.mp h)
  · have h' : generator_assert fc_unit gf_dim = false :=
      Bool.eq_false_iff.mpr h
    simp only [generator, h', Bool.false_eq_true, if_false,
      Option.isSome_none, false_iff]
    intro hfc
    exact h (hb.mpr (hq.mp hfc))

/-- Claim C4: the discriminator returns the pair
`(encoder x, decoder (encoder x))`, and the two per-step invocations in
`build_magan` (real batch, then generated batch with `reuse=True`) both
read the same variable store, hence identical parameter values. -/
theorem discriminator_pair_shared_params (S : Substrate) (θ : ParamStore)
    (df_dim channel : ℕ) (x g : Tensor) :
    discriminator S θ df_dim channel x
        = (encoder S θ df_dim x,
           decoder S θ df_dim channel (encoder S θ df_dim x)) ∧
    build_discriminator_passes S θ df_dim channel x g
        = (discriminator S θ df_dim channel x,
           discriminator S θ df_dim channel g) :=
  ⟨rfl, rfl⟩

/-- Claim C5: every element of a successfully constructed generator output lies
in `[-1, 1]`, since the final stage applies tanh elementwise. -/
theorem generator_output_bounded (S : Substrate) (θ : ParamStore)
    (gf_dim fc_unit channel : ℕ) (is_train : Bool) (z : Tensor)
    (out : Tensor)
    (h : generator S θ gf_dim fc_unit channel is_train z = some out)
    (i : ℕ) : out i ∈ Set.Icc (-1 : ℝ) 1 := by
  unfold generator at h
  split at h
  · rw [Option.some_inj] at h
    subst h
    exact ⟨(neg_one_lt_real_tanh _).le, (real_tanh_lt_one _).le⟩
  · exact absurd h (by simp)

/-- Claim C5 witness: at the pass-through substrate, zero store and zero noise,
the default configuration `gf_dim = 64`, `fc_unit = 512` constructs, and
element 0 of the output is inside `[-1, 1]`. -/
theorem generator_output_bounded_holds :
    generator sub0 params0 64 512 1 true tensor0
        = some (generator_layers sub0 params0 64 512 1 true tensor0) ∧
    generator_layers sub0 params0 64 512 1 true tensor0 0
        ∈ Set.Icc (-1 : ℝ) 1 :=
  ⟨rfl, generator_output_bounded sub0 params0 64 512 1 true tensor0 _ rfl 0⟩

/-- Claim C6: every element of the decoder's output lies in `[0, 1]`, since the
final stage applies the sigmoid elementwise. -/
theorem decoder_output_bounded (S : Substrate) (θ : ParamStore)
    (df_dim channel : ℕ) (x : Tensor) (i : ℕ) :
    decoder S θ df_dim channel x i ∈ Set.Icc (0 : ℝ) 1 :=
  ⟨(sigmoid_pos _).le, (sigmoid_lt_one _).le⟩

end MAGAN
